import Mathlib

/-!
Shallow embedding of `drivers/raw/ioat/idxd_pci.c` (DPDK idxd PCI rawdev
driver control plane) and verification of its specified properties.

Registers and C integer values are modelled as `Nat`, with explicit
truncation (`% 2^w`) where the C code performs a narrowing conversion.
Hardware reads of the command-status register are modelled by a sequence
`σ : Nat → Nat`: the k-th read of `cmdstatus` inside the poll loop of
`idxd_pci_dev_command` returns `σ k`.
-/

set_option maxHeartbeats 1000000
set_option maxRecDepth 4000

/-- Modelled from the spec: constants from `ioat_spec.h`, which is not part of
the sources here. The spec fixes the command encoding as
`(opcode << 8) | target` (so the opcode shift is 8), a "command active" bit in
the command-status register, the low error-code byte of the command status, and
a device state field in the general-status register. -/
def IDXD_CMD_SHIFT : Nat := 8

/-- Modelled from the spec: the "command active" bit of `cmdstatus`. -/
def CMDSTATUS_ACTIVE_MASK : Nat := 1 <<< 31

/-- Modelled from the spec: the low error-code bits of `cmdstatus`. -/
def CMDSTATUS_ERR_MASK : Nat := 0xFF

/-- Modelled from the spec: the device state field of `gensts`. -/
def GENSTS_DEV_STATE_MASK : Nat := 0x3

/-- Modelled from the spec: word indices into a queue's `wqcfg` register array
(`ioat_spec.h` is not in the sources; the spec lists distinct state, size,
mode and size-limits fields in each queue-config entry). -/
def WQ_SIZE_IDX : Nat := 0

/-- Modelled from the spec: word index of the queue mode/priority field. -/
def WQ_MODE_IDX : Nat := 2

/-- Modelled from the spec: word index of the queue size-limits field. -/
def WQ_SIZES_IDX : Nat := 3

/-- Modelled from the spec: word index of the queue state field. -/
def WQ_STATE_IDX : Nat := 6

/-- Modelled from the spec: shift of the queue state subfield. -/
def WQ_STATE_SHIFT : Nat := 30

/-- Modelled from the spec: mask of the queue state subfield. -/
def WQ_STATE_MASK : Nat := 0x3

/-- Modelled from the spec: dedicated queue mode value. -/
def WQ_MODE_DEDICATED : Nat := 1

/-- Modelled from the spec: shift of the priority subfield of the mode word. -/
def WQ_PRIORITY_SHIFT : Nat := 4

/-- Modelled from the spec: the fixed bit offset (`batchShift`) of the
max-batch exponent inside the size-limits word. -/
def WQ_BATCH_SZ_SHIFT : Nat := 5

/-- Modelled from the spec: `enum rte_idxd_cmds` is declared in `ioat_spec.h`,
which is not part of the sources here. The source tests
`idxd_disable_wq <= command && command <= idxd_reset_wq` to decide whether a
command is queue-scoped, and the spec classifies exactly the commands that
enable, disable or reset a single queue as queue-scoped (one-bit-mask target),
so the three queue commands are modelled as lying inside that range. -/
def idxd_enable_dev : Nat := 1

/-- Modelled from the spec: device-disable opcode. -/
def idxd_disable_dev : Nat := 2

/-- Modelled from the spec: drain-all opcode (device-scoped). -/
def idxd_drain_all : Nat := 3

/-- Modelled from the spec: abort-all opcode (device-scoped). -/
def idxd_abort_all : Nat := 4

/-- Modelled from the spec: device-reset opcode (device-scoped). -/
def idxd_reset_device : Nat := 5

/-- Modelled from the spec: lower bound of the queue-scoped opcode range. -/
def idxd_disable_wq : Nat := 6

/-- Modelled from the spec: queue-enable opcode (queue-scoped). -/
def idxd_enable_wq : Nat := 7

/-- Modelled from the spec: queue-drain opcode (queue-scoped). -/
def idxd_drain_wq : Nat := 8

/-- Modelled from the spec: queue-abort opcode (queue-scoped). -/
def idxd_abort_wq : Nat := 9

/-- Modelled from the spec: upper bound of the queue-scoped opcode range. -/
def idxd_reset_wq : Nat := 10

/-- Outcome of the poll loop in `idxd_pci_dev_command`: whether the
1000-iteration cap was hit, the `int` value returned, the number of loop
iterations executed, and whether the spinlock was released on exit. -/
structure CmdOutcome where
  timedOut : Bool
  ret : Nat
  iters : Nat
  lockReleased : Bool
  deriving DecidableEq, Repr

/-- The do-while poll loop of `idxd_pci_dev_command` (idxd_pci.c:33-41).
`fuel` is `1000 - i` at entry, `i` the C iteration counter, `r` the index of
the next `cmdstatus` read in the sequence `σ`. Each iteration first reads
`err_code = cmdstatus` (a `uint8_t`, hence `% 2^8`), then increments `i` and
returns `err_code` on hitting the cap, and otherwise re-reads `cmdstatus` in
the loop condition to test the active bit. -/
def pollAux (σ : Nat → Nat) : Nat → Nat → Nat → CmdOutcome
  | 0, i, _ => ⟨false, 0, i, true⟩
  | fuel + 1, i, r =>
    let err := σ r % 2 ^ 8
    if 1000 ≤ i + 1 then ⟨true, err, i + 1, true⟩
    else if σ (r + 1) &&& CMDSTATUS_ACTIVE_MASK ≠ 0 then pollAux σ fuel (i + 1) (r + 2)
    else ⟨false, err &&& CMDSTATUS_ERR_MASK, i + 1, true⟩

/-- Result of `idxd_pci_dev_command`: the value written to the command
register, and the poll-loop outcome. -/
structure CmdExec where
  cmdWritten : Nat
  out : CmdOutcome
  deriving DecidableEq, Repr

/-- `idxd_pci_dev_command` (idxd_pci.c:21-45). `qid0` is the `uint16_t`
`idxd->qid`; for commands in the queue-scoped range it is replaced by the
one-bit mask `1 << qid` (truncated back to `uint16_t`). The encoded command
`(command << IDXD_CMD_SHIFT) | qid` is written to the 32-bit command
register, then the status register is polled. -/
def idxd_pci_dev_command (command qid0 : Nat) (σ : Nat → Nat) : CmdExec :=
  let q0 := qid0 % 2 ^ 16
  let qid := if idxd_disable_wq ≤ command ∧ command ≤ idxd_reset_wq
             then (1 <<< q0) % 2 ^ 16 else q0
  { cmdWritten := ((command <<< IDXD_CMD_SHIFT) ||| qid) % 2 ^ 32,
    out := pollAux σ 1000 0 0 }

/-- The capability/status registers of the device, read by
`init_pci_device` (BAR0 fixed register set). Values are arbitrary naturals;
the code narrows them exactly as the C casts do. -/
structure CapRegs where
  gensts : Nat
  cmdstatus : Nat
  grpcap : Nat
  engcap : Nat
  wqcap : Nat
  gencap : Nat
  deriving DecidableEq, Repr

/-- The mutable configuration registers written by `init_pci_device`:
the per-group engine bitmap `grpengcfg` and queue bitmap `grpwqcfg[0]`
(both 64-bit, indexed by group), the per-queue 32-bit config words
`wqcfg` (queue index, word index), and the command register `cmd`. -/
structure ConfigState where
  grpengcfg : Nat → Nat
  grpwqcfg : Nat → Nat
  wqcfg : Nat → Nat → Nat
  cmd : Nat

/-- Point update of a one-argument register table. -/
def updFn (f : Nat → Nat) (i v : Nat) : Nat → Nat :=
  fun j => if j = i then v else f j

/-- Point update of one word of the per-queue config table. -/
def updWq (f : Nat → Nat → Nat) (i w v : Nat) : Nat → Nat → Nat :=
  fun q' w' => if q' = i ∧ w' = w then v else f q' w'

/-- `for (i = 0; i < n; i++) s = body i s`: applies `body 0` first and
`body (n-1)` last, matching the ascending C loops. -/
def foldN {α : Type} (body : Nat → α → α) : Nat → α → α
  | 0, s => s
  | n + 1, s => body n (foldN body n s)

/-- Body of the group zeroing loop (idxd_pci.c:111-114):
`grp_regs[i].grpengcfg = 0; grp_regs[i].grpwqcfg[0] = 0;`. -/
def zeroGrpBody (i : Nat) (s : ConfigState) : ConfigState :=
  { s with grpengcfg := updFn s.grpengcfg i 0,
           grpwqcfg := updFn s.grpwqcfg i 0 }

/-- Body of the queue-config zeroing loop (idxd_pci.c:115-116):
`wq_regs[i].wqcfg[0] = 0;`. -/
def zeroWqBody (i : Nat) (s : ConfigState) : ConfigState :=
  { s with wqcfg := updWq s.wqcfg i 0 0 }

/-- Body of the engine assignment loop (idxd_pci.c:125-129):
`grp_regs[i % nb_groups].grpengcfg |= (1ULL << i);`. -/
def engBody (m i : Nat) (s : ConfigState) : ConfigState :=
  { s with grpengcfg :=
      updFn s.grpengcfg (i % m) (s.grpengcfg (i % m) ||| (1 <<< i)) }

/-- Body of the work-queue configuration loop (idxd_pci.c:135-146): adds
queue `i` to group `i % nb_groups` and writes its size, mode and
size-limits config words. -/
def wqBody (m sz md szs i : Nat) (s : ConfigState) : ConfigState :=
  let s1 := { s with
    grpwqcfg := updFn s.grpwqcfg (i % m) (s.grpwqcfg (i % m) ||| (1 <<< i)) }
  let s2 := { s1 with wqcfg := updWq s1.wqcfg i WQ_SIZE_IDX sz }
  let s3 := { s2 with wqcfg := updWq s2.wqcfg i WQ_MODE_IDX md }
  { s3 with wqcfg := updWq s3.wqcfg i WQ_SIZES_IDX szs }

/-- `nb_groups = (uint8_t)regs->grpcap` (idxd_pci.c:100). -/
def nbGroups (regs : CapRegs) : Nat := regs.grpcap % 2 ^ 8

/-- `nb_engines = (uint8_t)regs->engcap` (idxd_pci.c:101). -/
def nbEngines (regs : CapRegs) : Nat := regs.engcap % 2 ^ 8

/-- `nb_wqs = (uint8_t)(regs->wqcap >> 16)` (idxd_pci.c:102). -/
def nbWqs (regs : CapRegs) : Nat := (regs.wqcap >>> 16) % 2 ^ 8

/-- `total_wq_size = (uint16_t)regs->wqcap` (idxd_pci.c:103). -/
def totalWqSize (regs : CapRegs) : Nat := regs.wqcap % 2 ^ 16

/-- `lg2_max_copy_size = (uint8_t)(regs->gencap >> 16) & 0x1F` (l.104). -/
def lg2MaxCopy (regs : CapRegs) : Nat := ((regs.gencap >>> 16) % 2 ^ 8) &&& 0x1F

/-- `lg2_max_batch = (uint8_t)(regs->gencap >> 21) & 0x0F` (l.105). -/
def lg2MaxBatch (regs : CapRegs) : Nat := ((regs.gencap >>> 21) % 2 ^ 8) &&& 0x0F

/-- Group count after `if (nb_groups > nb_engines) nb_groups = nb_engines;`
(idxd_pci.c:119-120). -/
def clampedGroups (regs : CapRegs) : Nat :=
  if nbEngines regs < nbGroups regs then nbEngines regs else nbGroups regs

/-- Engine count after `if (nb_groups < nb_engines) nb_engines = nb_groups;`
(idxd_pci.c:121-122). -/
def clampedEngines (regs : CapRegs) : Nat :=
  if clampedGroups regs < nbEngines regs then clampedGroups regs else nbEngines regs

/-- Configuration state after the two zeroing loops (idxd_pci.c:111-116). -/
def zeroedState (regs : CapRegs) (s0 : ConfigState) : ConfigState :=
  foldN zeroWqBody (nbWqs regs) (foldN zeroGrpBody (nbGroups regs) s0)

/-- Configuration state after the engine assignment loop (idxd_pci.c:125-129). -/
def engState (regs : CapRegs) (s0 : ConfigState) : ConfigState :=
  foldN (engBody (clampedGroups regs)) (clampedEngines regs) (zeroedState regs s0)

/-- Queue mode word: `(1 << WQ_PRIORITY_SHIFT) | WQ_MODE_DEDICATED`
(idxd_pci.c:142-143). -/
def wqModeWord : Nat := (1 <<< WQ_PRIORITY_SHIFT) ||| WQ_MODE_DEDICATED

/-- Queue size-limits word: `lg2_max_copy_size | (lg2_max_batch <<
WQ_BATCH_SZ_SHIFT)` (idxd_pci.c:144-145). -/
def wqSizesWord (regs : CapRegs) : Nat :=
  lg2MaxCopy regs ||| (lg2MaxBatch regs <<< WQ_BATCH_SZ_SHIFT)

/-- `wq_size = total_wq_size / nb_wqs` (idxd_pci.c:132), integer division. -/
def wqSize (regs : CapRegs) : Nat := totalWqSize regs / nbWqs regs

/-- Configuration state after the work-queue configuration loop
(idxd_pci.c:135-146). -/
def configuredState (regs : CapRegs) (s0 : ConfigState) : ConfigState :=
  foldN (wqBody (clampedGroups regs) (wqSize regs) wqModeWord (wqSizesWord regs))
    (nbWqs regs) (engState regs s0)

/-- Outcome of `init_pci_device`: the allocation-failure and invalid-state
paths return -1 via `goto err`; `divByZero` and `modByZero` mark the inputs
on which the C evaluates `total_wq_size / nb_wqs` with `nb_wqs == 0`
(idxd_pci.c:132) resp. `i % nb_groups` with `nb_groups == 0`
(idxd_pci.c:139), both undefined; `ret v` is a normal `return v` (the
enable-command error code, or `nb_wqs` on success). -/
inductive InitOutcome where
  | allocFailure
  | invalidDeviceState
  | divByZero
  | modByZero
  | ret (v : Int)
  deriving DecidableEq, Repr

/-- `init_pci_device` (idxd_pci.c:62-172). `mallocOk` models whether
`malloc` succeeds; `σ` is the `cmdstatus` read sequence seen by the poll
loop of the device-enable command; `s0` is the configuration-register state
on entry. Returns the outcome and the final configuration-register state.
The device-enable command is issued with `idxd->qid` still 0 (the probe's
`idxd` struct is zero-initialized and `qid` is only set later). -/
def init_pci_device (mallocOk : Bool) (regs : CapRegs) (σ : Nat → Nat)
    (s0 : ConfigState) : InitOutcome × ConfigState :=
  if !mallocOk then (.allocFailure, s0)
  else if regs.gensts &&& GENSTS_DEV_STATE_MASK ≠ 0 then (.invalidDeviceState, s0)
  else if regs.cmdstatus &&& CMDSTATUS_ACTIVE_MASK ≠ 0 then (.invalidDeviceState, s0)
  else if nbWqs regs = 0 then (.divByZero, engState regs s0)
  else if clampedGroups regs = 0 then (.modByZero, engState regs s0)
  else
    let ex := idxd_pci_dev_command idxd_enable_dev 0 σ
    let s := { configuredState regs s0 with cmd := ex.cmdWritten }
    if ex.out.ret ≠ 0 then (.ret (ex.out.ret : Int), s)
    else (.ret ((nbWqs regs : Nat) : Int), s)

/-- The per-queue rawdev creation loop of `idxd_rawdev_probe_pci`
(idxd_pci.c:194-212). `createRet qid` is the value returned by
`idxd_rawdev_create` for queue `qid`; the first argument is the number of
remaining queues, then the current queue index and the list of queues whose
rawdevs have been created so far. On a creation failure the loop returns
that error, the queues already created (which stay live), and whether
`idxd.u.pci` was freed (`qid == 0` only). -/
def probeLoop (createRet : Nat → Int) : Nat → Nat → List Nat → Int × List Nat × Bool
  | 0, _, created => (0, created, false)
  | n + 1, qid, created =>
    if createRet qid ≠ 0 then (createRet qid, created, decide (qid = 0))
    else probeLoop createRet n (qid + 1) (created ++ [qid])

/-- Observable outcome of `idxd_rawdev_probe_pci`: `undef` when
`init_pci_device` hit undefined behaviour, otherwise the returned value,
the queue indices whose rawdevs were created, and whether the shared
`idxd_pci_common` structure was freed. -/
inductive ProbeOutcome where
  | undef
  | res (ret : Int) (created : List Nat) (pciFreed : Bool)
  deriving DecidableEq, Repr

/-- `idxd_rawdev_probe_pci` (idxd_pci.c:174-215): runs `init_pci_device`,
returns its result if negative, otherwise takes `nb_wqs = (uint8_t)ret` and
creates one rawdev per queue. -/
def idxd_rawdev_probe_pci (mallocOk : Bool) (regs : CapRegs) (σ : Nat → Nat)
    (s0 : ConfigState) (createRet : Nat → Int) : ProbeOutcome :=
  match (init_pci_device mallocOk regs σ s0).1 with
  | .divByZero => .undef
  | .modByZero => .undef
  | .allocFailure => .res (-1) [] false
  | .invalidDeviceState => .res (-1) [] false
  | .ret v =>
    if v < 0 then .res v [] false
    else
      let r := probeLoop createRet (v.toNat % 2 ^ 8) 0 []
      .res r.1 r.2.1 r.2.2

/-- Observable outcome of `idxd_rawdev_destroy`: the returned value and
which teardown actions ran (freeing the batch ring, handle ring and
memzone, and releasing the rawdev registration). -/
structure DestroyResult where
  ret : Int
  batchRingFreed : Bool
  hdlRingFreed : Bool
  mzFreed : Bool
  released : Bool
  deriving DecidableEq, Repr

/-- `idxd_rawdev_destroy` (idxd_pci.c:217-261). `nameValid` models
`name != NULL`, `devFound` a successful rawdev lookup, `devPrivate` a
non-NULL `rdev->dev_private`; `σ` is the `cmdstatus` read sequence of the
device-disable command. `-EINVAL` is -22. -/
def idxd_rawdev_destroy (nameValid devFound devPrivate : Bool) (qid : Nat)
    (σ : Nat → Nat) : DestroyResult :=
  if !nameValid then ⟨-22, false, false, false, false⟩
  else if !devFound then ⟨-22, false, false, false, false⟩
  else
    let e := idxd_pci_dev_command idxd_disable_dev qid σ
    let err_code : Nat := e.out.ret % 2 ^ 8
    if err_code ≠ 0 then ⟨(err_code : Int), false, false, false, false⟩
    else if devPrivate then ⟨0, true, true, true, true⟩
    else ⟨0, false, false, false, true⟩

/-- The bitmap of work queues assigned by the queue loop to group `j` when
`n` queues are distributed round-robin over `m` groups: the OR of `1 <<< i`
over all `i < n` with `i % m = j`. -/
def wqMask (m j : Nat) : Nat → Nat
  | 0 => 0
  | n + 1 => if n % m = j then wqMask m j n ||| (1 <<< n) else wqMask m j n

/-- Configuration state with all registers zero. -/
def zeroState : ConfigState := ⟨fun _ => 0, fun _ => 0, fun _ _ => 0, 0⟩

/-- Configuration state with distinctive nonzero register values, used to
observe that a code path performs no writes. -/
def markedState : ConfigState := ⟨fun _ => 11, fun _ => 22, fun _ _ => 33, 44⟩

/-- Status sequence: every `cmdstatus` read returns 0 (command completes on
the first poll with a zero error code). -/
def alwaysClear : Nat → Nat := fun _ => 0

/-- Status sequence: every `cmdstatus` read has the active bit set. -/
def alwaysActive : Nat → Nat := fun _ => CMDSTATUS_ACTIVE_MASK

/-- Status sequence: the reads in the loop condition (odd read indices)
always show the active bit set, while the reads stored into `err_code`
(even read indices) are 0. -/
def altActive : Nat → Nat := fun k => if k % 2 = 1 then CMDSTATUS_ACTIVE_MASK else 0

/-- Status sequence: the first read returns error code 1, the active bit is
clear on the condition read, so the command completes with error 1. -/
def failOnce : Nat → Nat := fun k => if k = 0 then 1 else 0

/-- Status sequence: the command completes immediately with error code 5. -/
def failFive : Nat → Nat := fun k => if k = 0 then 5 else 0

/-- Capability registers of the spec's end-to-end example:
groups=4, engines=4, queues=8, total depth=128, maxCopyExp=20 (gencap bits
16-20), maxBatchExp=4 (gencap bits 21-24); device idle, no command active. -/
def c6regs : CapRegs :=
  { gensts := 0, cmdstatus := 0, grpcap := 4, engcap := 4,
    wqcap := 128 ||| (8 <<< 16), gencap := (20 <<< 16) ||| (4 <<< 21) }

/-- Capability registers with groups=1, engines=1, queues=2, depth=8. -/
def c2regs : CapRegs :=
  { gensts := 0, cmdstatus := 0, grpcap := 1, engcap := 1,
    wqcap := 8 ||| (2 <<< 16), gencap := 0 }

/-- Capability registers of a device whose `gensts` state field is nonzero
(not disabled). -/
def c7regs : CapRegs :=
  { gensts := 1, cmdstatus := 0, grpcap := 4, engcap := 4,
    wqcap := 128 ||| (8 <<< 16), gencap := 0 }

/-- Capability registers reporting queue count 0 (bits 16-23 of `wqcap`)
with nonzero total depth. -/
def c9regs : CapRegs :=
  { gensts := 0, cmdstatus := 0, grpcap := 1, engcap := 1,
    wqcap := 64, gencap := 0 }

/-- Rawdev creation results: queue 1 fails with -12 (-ENOMEM), others
succeed. -/
def createFailAt1 : Nat → Int := fun i => if i = 1 then -12 else 0

theorem cmd_out_eq (c q : Nat) (σ : Nat → Nat) :
    (idxd_pci_dev_command c q σ).out = pollAux σ 1000 0 0 := rfl

theorem cmdWritten_eq (c q : Nat) (σ : Nat → Nat) :
    (idxd_pci_dev_command c q σ).cmdWritten =
      ((c <<< IDXD_CMD_SHIFT) |||
        (if idxd_disable_wq ≤ c ∧ c ≤ idxd_reset_wq
         then (1 <<< (q % 2 ^ 16)) % 2 ^ 16 else q % 2 ^ 16)) % 2 ^ 32 := rfl

theorem pollAux_timeout (σ : Nat → Nat) :
    ∀ fuel i, fuel + i = 1000 → 1 ≤ fuel →
    (∀ k, i ≤ k → k < 999 → σ (2 * k + 1) &&& CMDSTATUS_ACTIVE_MASK ≠ 0) →
    pollAux σ fuel i (2 * i) = ⟨true, σ 1998 % 2 ^ 8, 1000, true⟩ := by
  intro fuel
  induction fuel with
  | zero => intro i _ h1 _; omega
  | succ f ih =>
    intro i hsum _ hact
    simp only [pollAux]
    by_cases hcap : 1000 ≤ i + 1
    · rw [if_pos hcap]
      have hi : i = 999 := by omega
      subst hi
      rfl
    · rw [if_neg hcap]
      have hA : σ (2 * i + 1) &&& CMDSTATUS_ACTIVE_MASK ≠ 0 :=
        hact i le_rfl (by omega)
      rw [if_pos hA]
      have h2 : 2 * i + 2 = 2 * (i + 1) := by ring
      rw [h2]
      exact ih (i + 1) (by omega) (by omega) (fun k hk hk2 => hact k (by omega) hk2)

theorem pollAux_iters (σ : Nat → Nat) :
    ∀ fuel i r, fuel + i = 1000 → 1 ≤ fuel →
    i < (pollAux σ fuel i r).iters ∧ (pollAux σ fuel i r).iters ≤ 1000 := by
  intro fuel
  induction fuel with
  | zero => intro i r _ h1; omega
  | succ f ih =>
    intro i r hsum _
    simp only [pollAux]
    by_cases hcap : 1000 ≤ i + 1
    · rw [if_pos hcap]
      show i < i + 1 ∧ i + 1 ≤ 1000
      omega
    · rw [if_neg hcap]
      by_cases hA : σ (r + 1) &&& CMDSTATUS_ACTIVE_MASK ≠ 0
      · rw [if_pos hA]
        have h := ih (i + 1) (r + 2) (by omega) (by omega)
        exact ⟨by omega, h.2⟩
      · rw [if_neg hA]
        show i < i + 1 ∧ i + 1 ≤ 1000
        omega

/-- C3: for every status-register sequence whose loop-condition reads never
show the active bit clear, the poll loop of `idxd_pci_dev_command` performs
exactly 1000 iterations, releases the lock and returns (as a timeout) the
last observed status byte, the 1000th read; moreover for every sequence the
executor terminates within 1 to 1000 iterations. -/
theorem claim_c3 (σ : Nat → Nat)
    (h : ∀ k, k < 999 → σ (2 * k + 1) &&& CMDSTATUS_ACTIVE_MASK ≠ 0) :
    (∀ c q, (idxd_pci_dev_command c q σ).out =
      ⟨true, σ 1998 % 2 ^ 8, 1000, true⟩) ∧
    (∀ (σ2 : Nat → Nat) c q, 1 ≤ (idxd_pci_dev_command c q σ2).out.iters ∧
      (idxd_pci_dev_command c q σ2).out.iters ≤ 1000) := by
  constructor
  · intro c q
    rw [cmd_out_eq]
    have h0 := pollAux_timeout σ 1000 0 (by omega) (by omega)
      (fun k _ hk => h k hk)
    simpa using h0
  · intro σ2 c q
    rw [cmd_out_eq]
    have h0 := pollAux_iters σ2 1000 0 0 (by omega) (by omega)
    exact ⟨h0.1, h0.2⟩

theorem claim_c3_witness :
    (idxd_pci_dev_command idxd_enable_dev 0 alwaysActive).out =
      ⟨true, 0, 1000, true⟩ ∧
    1 ≤ (idxd_pci_dev_command idxd_enable_dev 0 alwaysClear).out.iters := by
  have h := claim_c3 alwaysActive
    (fun k _ => by
      show CMDSTATUS_ACTIVE_MASK &&& CMDSTATUS_ACTIVE_MASK ≠ 0
      decide)
  exact ⟨(h.1 idxd_enable_dev 0).trans (by decide), (h.2 alwaysClear idxd_enable_dev 0).1⟩

/-- C10: the timeout outcome is not distinguishable from success by the
return value alone: on `altActive` (whose loop-condition reads always show
the active bit set while the `err_code` reads are 0) the executor hits the
1000-iteration cap yet returns 0, the same value it returns on the
immediately-succeeding sequence `alwaysClear`. -/
theorem claim_c10 :
    ((idxd_pci_dev_command idxd_enable_dev 0 altActive).out.timedOut = true ∧
     (idxd_pci_dev_command idxd_enable_dev 0 altActive).out.iters = 1000 ∧
     (idxd_pci_dev_command idxd_enable_dev 0 altActive).out.ret = 0) ∧
    ((idxd_pci_dev_command idxd_enable_dev 0 alwaysClear).out.timedOut = false ∧
     (idxd_pci_dev_command idxd_enable_dev 0 alwaysClear).out.ret = 0) := by
  have h : (idxd_pci_dev_command idxd_enable_dev 0 altActive).out =
      ⟨true, altActive 1998 % 2 ^ 8, 1000, true⟩ := by
    rw [cmd_out_eq]
    have h0 := pollAux_timeout altActive 1000 0 (by omega) (by omega) ?hact
    · simpa using h0
    case hact =>
      intro k _ _
      have hmod : (2 * k + 1) % 2 = 1 := by omega
      show (if (2 * k + 1) % 2 = 1 then CMDSTATUS_ACTIVE_MASK else 0) &&&
        CMDSTATUS_ACTIVE_MASK ≠ 0
      rw [if_pos hmod]
      decide
  rw [h]
  exact ⟨⟨rfl, rfl, by decide⟩, ⟨by decide, by decide⟩⟩

/-- C4: the command register value written is
`(opcode << IDXD_CMD_SHIFT) | target`, where for the queue-scoped commands
(queue enable, disable, reset) the target is the one-bit mask
`1 << queueIndex` — in particular queue index 3 encodes target byte
`0b1000 = 8`, never the literal 3 — and for the device-scoped commands the
target is the raw index/value unmodified. -/
theorem claim_c4 (σ : Nat → Nat) (qid : Nat) :
    (∀ c, c = idxd_enable_wq ∨ c = idxd_disable_wq ∨ c = idxd_reset_wq →
      (idxd_pci_dev_command c qid σ).cmdWritten =
        ((c <<< IDXD_CMD_SHIFT) ||| ((1 <<< (qid % 2 ^ 16)) % 2 ^ 16)) % 2 ^ 32) ∧
    (∀ c, c = idxd_enable_wq ∨ c = idxd_disable_wq ∨ c = idxd_reset_wq →
      (idxd_pci_dev_command c 3 σ).cmdWritten % 2 ^ 8 = 8 ∧
      (idxd_pci_dev_command c 3 σ).cmdWritten % 2 ^ 8 ≠ 3) ∧
    (∀ c, c = idxd_enable_dev ∨ c = idxd_disable_dev ∨ c = idxd_drain_all ∨
        c = idxd_abort_all ∨ c = idxd_reset_device →
      (idxd_pci_dev_command c qid σ).cmdWritten =
        ((c <<< IDXD_CMD_SHIFT) ||| (qid % 2 ^ 16)) % 2 ^ 32) := by
  refine ⟨?_, ?_, ?_⟩
  · intro c hc
    rcases hc with rfl | rfl | rfl <;> rw [cmdWritten_eq] <;> rw [if_pos (by decide)]
  · intro c hc
    rcases hc with rfl | rfl | rfl <;>
      rw [cmdWritten_eq] <;> exact ⟨by decide, by decide⟩
  · intro c hc
    rcases hc with rfl | rfl | rfl | rfl | rfl <;>
      rw [cmdWritten_eq] <;> rw [if_neg (by decide)]

theorem claim_c4_witness :
    (idxd_pci_dev_command idxd_enable_wq 3 alwaysClear).cmdWritten =
      ((idxd_enable_wq <<< IDXD_CMD_SHIFT) ||| ((1 <<< (3 % 2 ^ 16)) % 2 ^ 16)) % 2 ^ 32 ∧
    (idxd_pci_dev_command idxd_enable_dev 3 alwaysClear).cmdWritten =
      ((idxd_enable_dev <<< IDXD_CMD_SHIFT) ||| (3 % 2 ^ 16)) % 2 ^ 32 :=
  ⟨(claim_c4 alwaysClear 3).1 idxd_enable_wq (Or.inl rfl),
   (claim_c4 alwaysClear 3).2.2 idxd_enable_dev (Or.inl rfl)⟩

/-- C1 (counterexample): with a valid name, a found device and a live
private structure, a device-disable command that completes with error code
1 makes `idxd_rawdev_destroy` return 1 immediately: the claim's teardown
actions (freeing the batch ring, handle ring and memzone, removing the
registration) do NOT proceed. -/
theorem claim_c1_counterexample :
    idxd_rawdev_destroy true true true 0 failOnce =
      { ret := 1, batchRingFreed := false, hdlRingFreed := false,
        mzFreed := false, released := false } := by
  decide

/-- C1 (amended): on device removal, if the device-disable command returns
a nonzero result, `idxd_rawdev_destroy` surfaces that error code as its
return value and teardown does not proceed: the batch ring, handle ring and
memzone are not released and the device registration is not removed. -/
theorem claim_c1 (devPrivate : Bool) (qid : Nat) (σ : Nat → Nat)
    (hfail : (idxd_pci_dev_command idxd_disable_dev qid σ).out.ret % 2 ^ 8 ≠ 0) :
    idxd_rawdev_destroy true true devPrivate qid σ =
      { ret := (((idxd_pci_dev_command idxd_disable_dev qid σ).out.ret % 2 ^ 8 : Nat) : Int),
        batchRingFreed := false, hdlRingFreed := false, mzFreed := false,
        released := false } := by
  have hf : (idxd_pci_dev_command idxd_disable_dev qid σ).out.ret % 256 ≠ 0 := by
    simpa using hfail
  unfold idxd_rawdev_destroy
  simp [hfail]
  intro h0
  exact absurd h0 hf

theorem claim_c1_witness :
    idxd_rawdev_destroy true true true 2 failFive =
      { ret := 5, batchRingFreed := false, hdlRingFreed := false,
        mzFreed := false, released := false } :=
  (claim_c1 true 2 failFive (by decide)).trans (by decide)

/-- C2 (code bug): with capabilities groups=1, engines=1, queues=2 and a
device-enable command completing with error code 5, `init_pci_device`
returns the positive error code 5 unchanged, but `idxd_rawdev_probe_pci`
only aborts on negative values: it treats 5 as the queue count, creates 5
rawdevs (queues 0..4), and returns 0 (success) — the probe does not abort
and the error is swallowed. -/
theorem claim_c2 :
    (init_pci_device true c2regs failFive zeroState).1 = .ret 5 ∧
    idxd_rawdev_probe_pci true c2regs failFive zeroState (fun _ => 0) =
      .res 0 [0, 1, 2, 3, 4] false := by
  constructor
  · decide
  · decide

/-- C7: if the device status register's state field is nonzero or the
command-status register shows an in-flight command, `init_pci_device` fails
with `InvalidDeviceState` and returns the configuration-register state
exactly as it received it: every group-config, queue-config and command
register is left unchanged (zero writes). -/
theorem claim_c7 (regs : CapRegs) (σ : Nat → Nat) (s0 : ConfigState)
    (h : regs.gensts &&& GENSTS_DEV_STATE_MASK ≠ 0 ∨
         regs.cmdstatus &&& CMDSTATUS_ACTIVE_MASK ≠ 0) :
    init_pci_device true regs σ s0 = (.invalidDeviceState, s0) := by
  unfold init_pci_device
  rcases h with h | h
  · simp [h]
  · by_cases h0 : regs.gensts &&& GENSTS_DEV_STATE_MASK ≠ 0 <;> simp [h0, h]

theorem claim_c7_witness :
    init_pci_device true c7regs alwaysClear markedState =
      (.invalidDeviceState, markedState) :=
  claim_c7 c7regs alwaysClear markedState (Or.inl (by decide))

theorem probeLoop_fail (createRet : Nat → Int) :
    ∀ (k n qid : Nat) (acc : List Nat), k < n →
    (∀ i, i < k → createRet (qid + i) = 0) → createRet (qid + k) ≠ 0 →
    probeLoop createRet n qid acc =
      (createRet (qid + k), acc ++ List.range' qid k, decide (qid + k = 0)) := by
  intro k
  induction k with
  | zero =>
    intro n qid acc hk _ hfail
    obtain ⟨m, rfl⟩ : ∃ m, n = m + 1 := ⟨n - 1, by omega⟩
    simp only [probeLoop]
    rw [if_pos (by simpa using hfail)]
    simp
  | succ k ih =>
    intro n qid acc hk hok hfail
    obtain ⟨m, rfl⟩ : ∃ m, n = m + 1 := ⟨n - 1, by omega⟩
    simp only [probeLoop]
    have h0 : createRet qid = 0 := by simpa using hok 0 (by omega)
    rw [if_neg (by simp [h0])]
    have hrec := ih m (qid + 1) (acc ++ [qid]) (by omega)
      (fun i hi => by
        have h2 := hok (i + 1) (by omega)
        have h3 : qid + (i + 1) = qid + 1 + i := by omega
        rwa [h3] at h2)
      (by
        have h3 : qid + (k + 1) = qid + 1 + k := by omega
        rwa [h3] at hfail)
    rw [hrec]
    have h4 : qid + 1 + k = qid + (k + 1) := by omega
    have h5 : acc ++ [qid] ++ List.range' (qid + 1) k = acc ++ List.range' qid (k + 1) := by
      rw [List.append_assoc, List.singleton_append, List.range'_succ]
    rw [h4, h5]

/-- C8: when rawdev creation first fails at queue `q` during probe, the
probe returns that creation error, the rawdevs of queues `0..q-1` created
before it remain (they are never rolled back), and the shared
`idxd_pci_common` structure is freed if and only if the very first queue
(`q = 0`) failed to materialize. -/
theorem claim_c8 (mallocOk : Bool) (regs : CapRegs) (σ : Nat → Nat) (s0 : ConfigState)
    (createRet : Nat → Int) (v : Int) (q : Nat)
    (hinit : (init_pci_device mallocOk regs σ s0).1 = .ret v)
    (hv : 0 ≤ v) (hq : q < v.toNat % 2 ^ 8)
    (hok : ∀ i, i < q → createRet i = 0) (hfail : createRet q ≠ 0) :
    idxd_rawdev_probe_pci mallocOk regs σ s0 createRet =
      .res (createRet q) (List.range q) (decide (q = 0)) := by
  unfold idxd_rawdev_probe_pci
  rw [hinit]
  dsimp only
  rw [if_neg (by omega)]
  have hrec := probeLoop_fail createRet q (v.toNat % 2 ^ 8) 0 [] hq
    (fun i hi => by simpa using hok i hi) (by simpa using hfail)
  simp at hrec
  simp [hrec, List.range_eq_range']

theorem claim_c8_witness :
    idxd_rawdev_probe_pci true c6regs alwaysClear zeroState createFailAt1 =
      .res (-12) [0] false :=
  (claim_c8 true c6regs alwaysClear zeroState createFailAt1 8 1 (by decide) (by decide)
    (by decide) (by decide) (by decide)).trans (by decide)

/-- C9: `init_pci_device` divides the total queue depth by the
hardware-reported queue count (`wqcap` bits 16-23) without a zero check:
whenever that field is at least 1 the division is well-defined (the
`divByZero` outcome is unreachable), and on a concrete capability input
reporting queue count 0 the unguarded division at idxd_pci.c:132 is
reached. -/
theorem claim_c9 :
    (∀ (regs : CapRegs) (σ : Nat → Nat) (s0 : ConfigState), 1 ≤ nbWqs regs →
      (init_pci_device true regs σ s0).1 ≠ InitOutcome.divByZero) ∧
    (init_pci_device true c9regs alwaysClear zeroState).1 = InitOutcome.divByZero := by
  constructor
  · intro regs σ s0 h
    unfold init_pci_device
    by_cases h1 : regs.gensts &&& GENSTS_DEV_STATE_MASK ≠ 0
    all_goals by_cases h2 : regs.cmdstatus &&& CMDSTATUS_ACTIVE_MASK ≠ 0
    all_goals have h3 : ¬ nbWqs regs = 0 := by omega
    all_goals by_cases h4 : clampedGroups regs = 0
    all_goals simp [h1, h2, h3, h4]
    all_goals split <;> simp
  · decide

theorem claim_c9_witness :
    (init_pci_device true c6regs alwaysClear zeroState).1 ≠ InitOutcome.divByZero :=
  claim_c9.1 c6regs alwaysClear zeroState (by decide)

theorem zeroGrp_grpengcfg : ∀ (n : Nat) (s : ConfigState) (j : Nat),
    (foldN zeroGrpBody n s).grpengcfg j = if j < n then 0 else s.grpengcfg j := by
  intro n
  induction n with
  | zero => intro s j; simp [foldN]
  | succ n ih =>
    intro s j
    simp only [foldN, zeroGrpBody, updFn]
    rw [ih]
    by_cases h : j = n
    · subst h; simp
    · by_cases h2 : j < n
      · simp [h, h2, Nat.lt_succ_of_lt h2]
      · have h3 : ¬ j < n + 1 := by omega
        simp [h, h2, h3]

theorem zeroGrp_grpwqcfg : ∀ (n : Nat) (s : ConfigState) (j : Nat),
    (foldN zeroGrpBody n s).grpwqcfg j = if j < n then 0 else s.grpwqcfg j := by
  intro n
  induction n with
  | zero => intro s j; simp [foldN]
  | succ n ih =>
    intro s j
    simp only [foldN, zeroGrpBody, updFn]
    rw [ih]
    by_cases h : j = n
    · subst h; simp
    · by_cases h2 : j < n
      · simp [h, h2, Nat.lt_succ_of_lt h2]
      · have h3 : ¬ j < n + 1 := by omega
        simp [h, h2, h3]

theorem zeroGrp_wqcfg : ∀ (n : Nat) (s : ConfigState),
    (foldN zeroGrpBody n s).wqcfg = s.wqcfg := by
  intro n
  induction n with
  | zero => intro s; rfl
  | succ n ih => intro s; simp only [foldN, zeroGrpBody]; exact ih s

theorem zeroWq_grpengcfg : ∀ (n : Nat) (s : ConfigState),
    (foldN zeroWqBody n s).grpengcfg = s.grpengcfg := by
  intro n
  induction n with
  | zero => intro s; rfl
  | succ n ih => intro s; simp only [foldN, zeroWqBody]; exact ih s

theorem zeroWq_grpwqcfg : ∀ (n : Nat) (s : ConfigState),
    (foldN zeroWqBody n s).grpwqcfg = s.grpwqcfg := by
  intro n
  induction n with
  | zero => intro s; rfl
  | succ n ih => intro s; simp only [foldN, zeroWqBody]; exact ih s

theorem engLoop_grpengcfg (m : Nat) : ∀ (n : Nat) (s : ConfigState), n ≤ m →
    ∀ j, (foldN (engBody m) n s).grpengcfg j =
      if j < n then s.grpengcfg j ||| (1 <<< j) else s.grpengcfg j := by
  intro n
  induction n with
  | zero => intro s _ j; simp [foldN]
  | succ n ih =>
    intro s hn j
    have hnm : n % m = n := Nat.mod_eq_of_lt (by omega)
    simp only [foldN, engBody, updFn, hnm]
    rw [ih s (by omega) j, ih s (by omega) n]
    by_cases h : j = n
    · subst h; simp
    · by_cases h2 : j < n
      · simp [h, h2, Nat.lt_succ_of_lt h2]
      · have h3 : ¬ j < n + 1 := by omega
        simp [h, h2, h3]

theorem engLoop_grpwqcfg (m : Nat) : ∀ (n : Nat) (s : ConfigState),
    (foldN (engBody m) n s).grpwqcfg = s.grpwqcfg := by
  intro n
  induction n with
  | zero => intro s; rfl
  | succ n ih => intro s; simp only [foldN, engBody]; exact ih s

theorem engLoop_wqcfg (m : Nat) : ∀ (n : Nat) (s : ConfigState),
    (foldN (engBody m) n s).wqcfg = s.wqcfg := by
  intro n
  induction n with
  | zero => intro s; rfl
  | succ n ih => intro s; simp only [foldN, engBody]; exact ih s

theorem wqLoop_grpengcfg (m sz md szs : Nat) : ∀ (n : Nat) (s : ConfigState),
    (foldN (wqBody m sz md szs) n s).grpengcfg = s.grpengcfg := by
  intro n
  induction n with
  | zero => intro s; rfl
  | succ n ih => intro s; simp only [foldN, wqBody]; exact ih s

theorem wqLoop_grpwqcfg (m sz md szs : Nat) : ∀ (n : Nat) (s : ConfigState) (j : Nat),
    (foldN (wqBody m sz md szs) n s).grpwqcfg j = s.grpwqcfg j ||| wqMask m j n := by
  intro n
  induction n with
  | zero => intro s j; simp [foldN, wqMask]
  | succ n ih =>
    intro s j
    simp only [foldN, wqBody, updFn, wqMask]
    simp only [ih]
    by_cases h : n % m = j
    · simp [h, Nat.or_assoc]
    · have h2 : ¬ j = n % m := fun hh => h hh.symm
      simp [h, h2]

theorem wqLoop_wqcfg (m sz md szs : Nat) : ∀ (n : Nat) (s : ConfigState) (q w : Nat),
    (foldN (wqBody m sz md szs) n s).wqcfg q w =
      if q < n then
        (if w = WQ_SIZES_IDX then szs
         else if w = WQ_MODE_IDX then md
         else if w = WQ_SIZE_IDX then sz
         else s.wqcfg q w)
      else s.wqcfg q w := by
  intro n
  induction n with
  | zero => intro s q w; simp [foldN]
  | succ n ih =>
    intro s q w
    simp only [foldN, wqBody, updWq]
    simp only [ih]
    by_cases hq : q = n <;>
      by_cases h1 : w = WQ_SIZES_IDX <;>
      by_cases h2 : w = WQ_MODE_IDX <;>
      by_cases h3 : w = WQ_SIZE_IDX <;>
      by_cases hlt : q < n <;>
      simp_all [WQ_SIZE_IDX, WQ_MODE_IDX, WQ_SIZES_IDX] <;>
      first
      | omega
      | (split_ifs <;> omega)

theorem wqMask_testBit (m : Nat) : ∀ (n j i : Nat), i < n → i % m = j →
    (wqMask m j n).testBit i = true := by
  intro n
  induction n with
  | zero => intro j i hi _; omega
  | succ n ih =>
    intro j i hi him
    by_cases hc : n % m = j
    · show (if n % m = j then wqMask m j n ||| (1 <<< n) else wqMask m j n).testBit i = true
      rw [if_pos hc, Nat.testBit_or]
      by_cases hin : i = n
      · subst hin
        have hbit : (1 <<< i).testBit i = true := by
          rw [Nat.shiftLeft_eq, one_mul]
          exact Nat.testBit_two_pow_self
        simp [hbit]
      · have : (wqMask m j n).testBit i = true := ih j i (by omega) him
        simp [this]
    · show (if n % m = j then wqMask m j n ||| (1 <<< n) else wqMask m j n).testBit i = true
      rw [if_neg hc]
      have hin : i ≠ n := fun hh => hc (hh ▸ him)
      exact ih j i (by omega) him

theorem clampedGroups_eq (regs : CapRegs) :
    clampedGroups regs = min (nbGroups regs) (nbEngines regs) := by
  unfold clampedGroups
  split_ifs <;> omega

theorem clampedEngines_eq (regs : CapRegs) :
    clampedEngines regs = min (nbGroups regs) (nbEngines regs) := by
  unfold clampedEngines clampedGroups
  split_ifs <;> omega

theorem configured_grpengcfg (regs : CapRegs) (s0 : ConfigState) (j : Nat)
    (hj : j < min (nbGroups regs) (nbEngines regs)) :
    (configuredState regs s0).grpengcfg j = 1 <<< j := by
  unfold configuredState
  rw [wqLoop_grpengcfg]
  unfold engState
  rw [engLoop_grpengcfg (clampedGroups regs) (clampedEngines regs) _
    (le_of_eq ((clampedEngines_eq regs).trans (clampedGroups_eq regs).symm)) j]
  rw [if_pos (by rw [clampedEngines_eq]; exact hj)]
  unfold zeroedState
  rw [congrFun (zeroWq_grpengcfg (nbWqs regs) _) j]
  rw [zeroGrp_grpengcfg]
  rw [if_pos (by omega)]
  exact Nat.zero_or _

theorem configured_grpwqcfg (regs : CapRegs) (s0 : ConfigState) (j : Nat)
    (hj : j < min (nbGroups regs) (nbEngines regs)) :
    (configuredState regs s0).grpwqcfg j =
      wqMask (clampedGroups regs) j (nbWqs regs) := by
  unfold configuredState
  rw [wqLoop_grpwqcfg]
  unfold engState
  rw [congrFun (engLoop_grpwqcfg (clampedGroups regs) (clampedEngines regs) _) j]
  unfold zeroedState
  rw [congrFun (zeroWq_grpwqcfg (nbWqs regs) _) j]
  rw [zeroGrp_grpwqcfg]
  rw [if_pos (by omega)]
  exact Nat.zero_or _

theorem configured_wqcfg (regs : CapRegs) (s0 : ConfigState) (i : Nat)
    (hi : i < nbWqs regs) :
    (configuredState regs s0).wqcfg i WQ_SIZE_IDX = wqSize regs ∧
    (configuredState regs s0).wqcfg i WQ_MODE_IDX = wqModeWord ∧
    (configuredState regs s0).wqcfg i WQ_SIZES_IDX = wqSizesWord regs := by
  unfold configuredState
  rw [wqLoop_wqcfg, wqLoop_wqcfg, wqLoop_wqcfg]
  rw [if_pos hi, if_pos hi, if_pos hi]
  refine ⟨?_, ?_, ?_⟩
  · rw [if_neg (by decide), if_neg (by decide), if_pos rfl]
  · rw [if_neg (by decide), if_pos rfl]
  · rw [if_pos rfl]

theorem init_snd (regs : CapRegs) (σ : Nat → Nat) (s0 : ConfigState)
    (h1 : regs.gensts &&& GENSTS_DEV_STATE_MASK = 0)
    (h2 : regs.cmdstatus &&& CMDSTATUS_ACTIVE_MASK = 0)
    (h3 : nbWqs regs ≠ 0) (h4 : clampedGroups regs ≠ 0) :
    (init_pci_device true regs σ s0).2 =
      { configuredState regs s0 with
        cmd := (idxd_pci_dev_command idxd_enable_dev 0 σ).cmdWritten } := by
  unfold init_pci_device
  simp [h1, h2, h3, h4]
  split <;> rfl

theorem one_shiftLeft_testBit_self (i : Nat) : (1 <<< i).testBit i = true := by
  rw [Nat.shiftLeft_eq, one_mul]
  exact Nat.testBit_two_pow_self

/-- C5: for every capability tuple with at least one group, engine and
queue and total depth at least the queue count, on an idle device the
configuration computed by `init_pci_device` assigns every engine `i` (of
the clamped engine count `min(groups,engines)`) to group `i mod
min(groups,engines)`, assigns every queue `i` to group
`i mod min(groups,engines)` (both group indices lying below
`min(groups,engines)`), gives every group index in that range at least one
engine, and sets every queue's size field to
`floor(totalDepth / queueCount)`, uniformly. -/
theorem claim_c5 (regs : CapRegs) (σ : Nat → Nat) (s0 : ConfigState)
    (hg : 1 ≤ nbGroups regs) (he : 1 ≤ nbEngines regs)
    (hq : 1 ≤ nbWqs regs) (hd : nbWqs regs ≤ totalWqSize regs)
    (h1 : regs.gensts &&& GENSTS_DEV_STATE_MASK = 0)
    (h2 : regs.cmdstatus &&& CMDSTATUS_ACTIVE_MASK = 0) :
    (∀ i, i < min (nbGroups regs) (nbEngines regs) →
      i % min (nbGroups regs) (nbEngines regs) < min (nbGroups regs) (nbEngines regs) ∧
      ((init_pci_device true regs σ s0).2.grpengcfg
        (i % min (nbGroups regs) (nbEngines regs))).testBit i = true) ∧
    (∀ i, i < nbWqs regs →
      i % min (nbGroups regs) (nbEngines regs) < min (nbGroups regs) (nbEngines regs) ∧
      ((init_pci_device true regs σ s0).2.grpwqcfg
        (i % min (nbGroups regs) (nbEngines regs))).testBit i = true) ∧
    (∀ j, j < min (nbGroups regs) (nbEngines regs) →
      (init_pci_device true regs σ s0).2.grpengcfg j ≠ 0) ∧
    (∀ i, i < nbWqs regs →
      (init_pci_device true regs σ s0).2.wqcfg i WQ_SIZE_IDX =
        totalWqSize regs / nbWqs regs) := by
  have hm : 0 < min (nbGroups regs) (nbEngines regs) := by omega
  have h4 : clampedGroups regs ≠ 0 := by rw [clampedGroups_eq]; omega
  have h3 : nbWqs regs ≠ 0 := by omega
  rw [init_snd regs σ s0 h1 h2 h3 h4]
  dsimp only
  refine ⟨?_, ?_, ?_, ?_⟩
  · intro i hi
    refine ⟨Nat.mod_lt i hm, ?_⟩
    rw [Nat.mod_eq_of_lt hi]
    rw [configured_grpengcfg regs s0 i hi]
    exact one_shiftLeft_testBit_self i
  · intro i hi
    refine ⟨Nat.mod_lt i hm, ?_⟩
    rw [configured_grpwqcfg regs s0 _ (Nat.mod_lt i hm)]
    exact wqMask_testBit (clampedGroups regs) (nbWqs regs) _ i hi
      (by rw [clampedGroups_eq])
  · intro j hj
    rw [configured_grpengcfg regs s0 j hj]
    have hpos : (0:Nat) < 1 <<< j := by
      rw [Nat.shiftLeft_eq, one_mul]
      exact pow_pos (by norm_num) j
    omega
  · intro i hi
    rw [(configured_wqcfg regs s0 i hi).1]
    rfl

theorem claim_c5_witness :
    ((init_pci_device true c6regs alwaysClear zeroState).2.grpengcfg
      (2 % min (nbGroups c6regs) (nbEngines c6regs))).testBit 2 = true ∧
    (init_pci_device true c6regs alwaysClear zeroState).2.wqcfg 5 WQ_SIZE_IDX =
      totalWqSize c6regs / nbWqs c6regs := by
  have h := claim_c5 c6regs alwaysClear zeroState (by decide) (by decide) (by decide)
    (by decide) (by decide) (by decide)
  exact ⟨(h.1 2 (by decide)).2, h.2.2.2 5 (by decide)⟩

/-- C6: on the capability tuple groups=4, engines=4, queues=8, depth=128,
maxBatchExp=4, maxCopyExp=20, `init_pci_device` succeeds returning 8
queues, and configures 4 groups each holding exactly one engine (engine
`j` in group `j`) and exactly two queues (queues `j` and `j+4`), every
queue with size 16, mode word `(1 << WQ_PRIORITY_SHIFT) |
WQ_MODE_DEDICATED` (dedicated, priority 1), and size-limits word
`20 | (4 << WQ_BATCH_SZ_SHIFT)`. -/
theorem claim_c6 :
    (init_pci_device true c6regs alwaysClear zeroState).1 = .ret 8 ∧
    (∀ j, j < 4 →
      (init_pci_device true c6regs alwaysClear zeroState).2.grpengcfg j = 1 <<< j) ∧
    (∀ j, j < 4 →
      (init_pci_device true c6regs alwaysClear zeroState).2.grpwqcfg j =
        (1 <<< j) ||| (1 <<< (j + 4))) ∧
    (∀ i, i < 8 →
      (init_pci_device true c6regs alwaysClear zeroState).2.wqcfg i WQ_SIZE_IDX = 16) ∧
    (∀ i, i < 8 →
      (init_pci_device true c6regs alwaysClear zeroState).2.wqcfg i WQ_MODE_IDX =
        (1 <<< WQ_PRIORITY_SHIFT) ||| WQ_MODE_DEDICATED) ∧
    (∀ i, i < 8 →
      (init_pci_device true c6regs alwaysClear zeroState).2.wqcfg i WQ_SIZES_IDX =
        20 ||| (4 <<< WQ_BATCH_SZ_SHIFT)) := by
  refine ⟨by decide, by decide, by decide, by decide, by decide, by decide⟩
